import Mathlib

/-!
Shallow embedding of the `aizu-server` reservation backend (`src/server.js`).

The two request handlers that hold the system's business logic are embedded
as pure Lean functions over an explicit store state:

* `validateReservation` — the express-validator chain attached to
  `POST /api/reservations` (server.js lines 80-100), including the `trim`
  sanitizers on `name` and `address` that mutate the request body;
* `createReservation` — the `POST /api/reservations` handler body
  (lines 101-189): validation check, room lookup, document assembly,
  insertion, confirmation e-mail with swallowed transport errors;
* `getReservation` — the `GET /api/reservations/:id` handler
  (lines 192-207): `new ObjectId` inside the try block, reservation lookup,
  room re-join, catch-all 500.

JSON field values are modelled by `Jval` (string or integer number) and
absence by `Option`.  Third-party validator.js predicates (`isEmail`,
`isISO8601`, `isInt`, `isMongoId`, `matches`) are modelled as executable
string predicates faithful to the rules the spec states for them; JS `Date`
values are modelled by `Option Int` (`none` = Invalid Date), ordered like
calendar dates, which is all the handler observes of them.
-/

set_option maxRecDepth 8000

namespace AizuServer

/-- A JSON scalar as it can appear in a reservation payload field:
a string or an (integer) number. -/
inductive Jval where
  | jstr (s : String)
  | jnum (n : Int)
  deriving DecidableEq, Repr

/-- The `POST /api/reservations` request body.  `none` models an absent
field (JS `undefined`). -/
structure Payload where
  userId : Option Jval
  name : Option Jval
  email : Option Jval
  postalCode : Option Jval
  address : Option Jval
  phone : Option Jval
  roomType : Option Jval
  checkIn : Option Jval
  checkOut : Option Jval
  nights : Option Jval
  guests : Option Jval
  roomId : Option Jval
  deriving DecidableEq, Repr

/-- One express-validator error descriptor, reduced to the field path and
the user-facing message. -/
structure FieldError where
  path : String
  msg : String
  deriving DecidableEq, Repr

/-- express-validator's coercion of a field value to the string the
validator.js predicates run on: missing value becomes `""`, numbers are
rendered in decimal. -/
def vstr : Option Jval → String
  | none => ""
  | some (.jstr s) => s
  | some (.jnum n) => toString n

/-- express-validator's `isString`: the raw value is present and a string. -/
def isStringV : Option Jval → Bool
  | some (.jstr _) => true
  | _ => false

/-- JS truthiness of a JSON scalar (the empty string and 0 are falsy). -/
def jsTruthy : Jval → Bool
  | .jstr s => !s.data.isEmpty
  | .jnum n => n != 0

/-- JS `String.prototype.trim`, written over the character list so it
evaluates in the kernel. -/
def trimString (s : String) : String :=
  ⟨((s.data.dropWhile Char.isWhitespace).reverse.dropWhile Char.isWhitespace).reverse⟩

/-- The `trim()` sanitizer of the validation chain; it rewrites a string
field in place and leaves other shapes alone (a non-string value already
fails `isString` and never reaches the success path). -/
def trimJ : Option Jval → Option Jval
  | some (.jstr s) => some (.jstr (trimString s))
  | v => v

def digitVal (c : Char) : Nat := c.toNat - 48

def digitsToNat (l : List Char) : Nat :=
  l.foldl (fun a c => a * 10 + digitVal c) 0

/-- Parse a decimal integer literal (optional sign), as validator.js
`isInt` recognises them. -/
def parseIntString (s : String) : Option Int :=
  match s.data with
  | [] => none
  | c :: rest =>
    if c = '-' then
      if !rest.isEmpty && rest.all Char.isDigit then
        some (-(digitsToNat rest : Int))
      else none
    else if c = '+' then
      if !rest.isEmpty && rest.all Char.isDigit then
        some (digitsToNat rest : Int)
      else none
    else
      if (c :: rest).all Char.isDigit then
        some (digitsToNat (c :: rest) : Int)
      else none

/-- validator.js `isInt({ min: 1 })` on the coerced string. -/
def isIntMin1 (s : String) : Bool :=
  match parseIntString s with
  | some k => 1 ≤ k
  | none => false

/-- Parser for `YYYY-MM-DD`: the ISO-8601 calendar-date form the spec names.
Returns the date encoded as `y*10000 + m*100 + d`, which orders dates
exactly as JS `Date` comparison does on valid dates. -/
def parseDateYMD (s : String) : Option Int :=
  match s.data with
  | [y1, y2, y3, y4, h1, m1, m2, h2, d1, d2] =>
    if h1 = '-' && h2 = '-' && [y1, y2, y3, y4, m1, m2, d1, d2].all Char.isDigit then
      let y := ((digitVal y1 * 10 + digitVal y2) * 10 + digitVal y3) * 10 + digitVal y4
      let m := digitVal m1 * 10 + digitVal m2
      let d := digitVal d1 * 10 + digitVal d2
      if 1 ≤ m && m ≤ 12 && 1 ≤ d && d ≤ 31 then
        some ((y * 10000 + m * 100 + d : Nat) : Int)
      else none
    else none
  | _ => none

/-- validator.js `isISO8601` restricted to the calendar-date form
(`YYYY-MM-DD`) that the spec and the source's own messages name. -/
def isISO8601Date (s : String) : Bool := (parseDateYMD s).isSome

/-- JS `new Date(value)` as the handler uses it: an ISO date string parses
to a date value, everything else is modelled as an Invalid Date (`none`);
comparisons against Invalid Date are always false, as with JS `NaN`. -/
def jsNewDate : Option Jval → Option Int
  | some (.jstr s) => parseDateYMD s
  | _ => none

/-- JS numeric coercion `Number(value)` restricted to the integer values
validation lets through (`none` models `NaN`). -/
def jsToNumber : Option Jval → Option Int
  | some (.jnum n) => some n
  | some (.jstr s) => if s.data.isEmpty then some 0 else parseIntString s
  | none => none

/-- JS `*` with `NaN` propagation. -/
def jsMul : Option Int → Option Int → Option Int
  | some a, some b => some (a * b)
  | _, _ => none

/-- Executable model of validator.js `isEmail`: exactly one `@`, non-empty
local part, a dot somewhere in a non-empty domain, and no spaces. -/
def isEmail (s : String) : Bool :=
  let l := s.data
  l.count '@' == 1 &&
    (let lpart := l.takeWhile (fun c => c ≠ '@')
     let dpart := (l.dropWhile (fun c => c ≠ '@')).drop 1
     !lpart.isEmpty && !dpart.isEmpty && dpart.contains '.' && !l.contains ' ')

/-- The `matches(/^\d\x7b3\x7d-\d\x7b4\x7d$/)` postal-code rule:
three digits, a hyphen, four digits. -/
def isPostalCode (s : String) : Bool :=
  match s.data with
  | [a, b, c, h, d, e, f, g] =>
    [a, b, c, d, e, f, g].all Char.isDigit && h = '-'
  | _ => false

/-- The `matches(/^\d\x7b10,11\x7d$/)` phone rule: 10 or 11 digits. -/
def isPhone (s : String) : Bool :=
  let l := s.data
  (l.length = 10 || l.length = 11) && l.all Char.isDigit

def isHexChar (c : Char) : Bool :=
  c.isDigit || ('a' ≤ c && c ≤ 'f') || ('A' ≤ c && c ≤ 'F')

/-- validator.js `isMongoId`: exactly 24 hexadecimal characters. -/
def isMongoId (s : String) : Bool :=
  s.data.length = 24 && s.data.all isHexChar

/-- validator.js `isEmpty` on the coerced string (used via `notEmpty`). -/
def notEmptyV (v : Option Jval) : Bool := !(vstr v).data.isEmpty

/- Error messages, transcribed from server.js lines 81-99. -/

def userIdMsg : String := "ユーザーIDは文字列で入力してください"
def nameStringMsg : String := "名前は文字列で入力してください"
def nameLengthMsg : String := "名前は2～50文字で入力してください"
def nameRequiredMsg : String := "名前は必須です"
def emailFormatMsg : String := "有効なメールアドレスを入力してください"
def emailRequiredMsg : String := "メールアドレスは必須です"
def postalFormatMsg : String := "郵便番号は「123-4567」の形式で入力してください"
def postalRequiredMsg : String := "郵便番号は必須です"
def addressStringMsg : String := "住所は文字列で入力してください"
def addressLengthMsg : String := "住所は5～100文字で入力してください"
def addressRequiredMsg : String := "住所は必須です"
def phoneFormatMsg : String := "電話番号は10～11桁の数字で入力してください"
def phoneRequiredMsg : String := "電話番号は必須です"
def roomTypeStringMsg : String := "部屋タイプは文字列で入力してください"
def roomTypeRequiredMsg : String := "部屋タイプは必須です"
def checkInFormatMsg : String := "チェックインは有効な日付（YYYY-MM-DD）を入力してください"
def checkInRequiredMsg : String := "チェックインは必須です"
def checkOutFormatMsg : String := "チェックアウトは有効な日付（YYYY-MM-DD）を入力してください"
def checkOutRequiredMsg : String := "チェックアウトは必須です"
def checkOutOrderMsg : String := "チェックアウトはチェックインより後の日付にしてください"
def nightsIntMsg : String := "泊数は1以上の整数で入力してください"
def nightsRequiredMsg : String := "泊数は必須です"
def guestsIntMsg : String := "人数は1以上の整数で入力してください"
def guestsRequiredMsg : String := "人数は必須です"
def roomIdFormatMsg : String := "部屋IDは有効なMongoDB ObjectId形式で入力してください"
def roomIdRequiredMsg : String := "部屋IDは必須です"

/- Per-field validation chains, one definition per `body(...)` chain of
server.js lines 81-99, each producing its error descriptors in validator
order.  Without `bail()`, express-validator runs every validator of a chain
and collects every failure. -/

/-- Chain for userId: optional, must be a string when present (line 81). -/
def userIdErrors (p : Payload) : List FieldError :=
  match p.userId with
  | none => []
  | some v => if isStringV (some v) then [] else [⟨"userId", userIdMsg⟩]

/-- Chain for name: isString, trim, isLength 2..50, notEmpty (line 82);
`isLength` and `notEmpty` see the trimmed value. -/
def nameErrors (p : Payload) : List FieldError :=
  let t := trimJ p.name
  (if isStringV p.name then [] else [⟨"name", nameStringMsg⟩]) ++
  (if 2 ≤ (vstr t).data.length ∧ (vstr t).data.length ≤ 50 then []
   else [⟨"name", nameLengthMsg⟩]) ++
  (if notEmptyV t then [] else [⟨"name", nameRequiredMsg⟩])

/-- Chain for email: isEmail, notEmpty (line 83). -/
def emailErrors (p : Payload) : List FieldError :=
  (if isEmail (vstr p.email) then [] else [⟨"email", emailFormatMsg⟩]) ++
  (if notEmptyV p.email then [] else [⟨"email", emailRequiredMsg⟩])

/-- Chain for postalCode: matches the postal pattern, notEmpty (line 84). -/
def postalCodeErrors (p : Payload) : List FieldError :=
  (if isPostalCode (vstr p.postalCode) then [] else [⟨"postalCode", postalFormatMsg⟩]) ++
  (if notEmptyV p.postalCode then [] else [⟨"postalCode", postalRequiredMsg⟩])

/-- Chain for address: isString, trim, isLength 5..100, notEmpty (line 85). -/
def addressErrors (p : Payload) : List FieldError :=
  let t := trimJ p.address
  (if isStringV p.address then [] else [⟨"address", addressStringMsg⟩]) ++
  (if 5 ≤ (vstr t).data.length ∧ (vstr t).data.length ≤ 100 then []
   else [⟨"address", addressLengthMsg⟩]) ++
  (if notEmptyV t then [] else [⟨"address", addressRequiredMsg⟩])

/-- Chain for phone: matches the phone pattern, notEmpty (line 86). -/
def phoneErrors (p : Payload) : List FieldError :=
  (if isPhone (vstr p.phone) then [] else [⟨"phone", phoneFormatMsg⟩]) ++
  (if notEmptyV p.phone then [] else [⟨"phone", phoneRequiredMsg⟩])

/-- Chain for roomType: isString, notEmpty (line 87). -/
def roomTypeErrors (p : Payload) : List FieldError :=
  (if isStringV p.roomType then [] else [⟨"roomType", roomTypeStringMsg⟩]) ++
  (if notEmptyV p.roomType then [] else [⟨"roomType", roomTypeRequiredMsg⟩])

/-- Chain for checkIn: isISO8601, notEmpty (line 88). -/
def checkInErrors (p : Payload) : List FieldError :=
  (if isISO8601Date (vstr p.checkIn) then [] else [⟨"checkIn", checkInFormatMsg⟩]) ++
  (if notEmptyV p.checkIn then [] else [⟨"checkIn", checkInRequiredMsg⟩])

/-- The `custom` cross-field rule of lines 89-96: build both dates with
`new Date`; throw exactly when `checkOutDate <= checkInDate` (comparisons
against an Invalid Date are false, so nothing is thrown then). -/
def checkOutCustomErrors (p : Payload) : List FieldError :=
  match jsNewDate p.checkIn, jsNewDate p.checkOut with
  | some ci, some co =>
    if co ≤ ci then [⟨"checkOut", checkOutOrderMsg⟩] else []
  | _, _ => []

/-- Chain for checkOut: isISO8601, notEmpty, then the custom rule (lines 89-96). -/
def checkOutErrors (p : Payload) : List FieldError :=
  (if isISO8601Date (vstr p.checkOut) then [] else [⟨"checkOut", checkOutFormatMsg⟩]) ++
  (if notEmptyV p.checkOut then [] else [⟨"checkOut", checkOutRequiredMsg⟩]) ++
  checkOutCustomErrors p

/-- Chain for nights: isInt with min 1, notEmpty (line 97). -/
def nightsErrors (p : Payload) : List FieldError :=
  (if isIntMin1 (vstr p.nights) then [] else [⟨"nights", nightsIntMsg⟩]) ++
  (if notEmptyV p.nights then [] else [⟨"nights", nightsRequiredMsg⟩])

/-- Chain for guests: isInt with min 1, notEmpty (line 98). -/
def guestsErrors (p : Payload) : List FieldError :=
  (if isIntMin1 (vstr p.guests) then [] else [⟨"guests", guestsIntMsg⟩]) ++
  (if notEmptyV p.guests then [] else [⟨"guests", guestsRequiredMsg⟩])

/-- Chain for roomId: isMongoId, notEmpty (line 99). -/
def roomIdErrors (p : Payload) : List FieldError :=
  (if isMongoId (vstr p.roomId) then [] else [⟨"roomId", roomIdFormatMsg⟩]) ++
  (if notEmptyV p.roomId then [] else [⟨"roomId", roomIdRequiredMsg⟩])

/-- The request body after the chain's sanitizers ran: `trim()` rewrote
`name` and `address` in place (lines 82 and 85); no other field has a
sanitizer. -/
def sanitizeP (p : Payload) : Payload :=
  { p with name := trimJ p.name, address := trimJ p.address }

/-- The whole validation middleware of `POST /api/reservations`: the
sanitized body together with `validationResult(req).array()`, the error
descriptors of every chain in declaration order. -/
def validateReservation (p : Payload) : Payload × List FieldError :=
  (sanitizeP p,
    userIdErrors p ++ nameErrors p ++ emailErrors p ++ postalCodeErrors p ++
    addressErrors p ++ phoneErrors p ++ roomTypeErrors p ++ checkInErrors p ++
    checkOutErrors p ++ nightsErrors p ++ guestsErrors p ++ roomIdErrors p)

/-! ## Store model and the two handlers -/

/-- A `rooms` collection document, with the fields the handlers read
(spec §3: identifier, `name`, `price`, `image`).  `_id` is the ObjectId's
24-hex-character string form. -/
structure Room where
  _id : String
  price : Int
  image : String
  name : String
  deriving DecidableEq, Repr

/-- The denormalized room snapshot persisted inside a reservation
(server.js lines 134-138). -/
structure RoomDetails where
  price : Int
  image : String
  name : String
  deriving DecidableEq, Repr

/-- The reservation document assembled at server.js lines 119-139 — these
are exactly its fields; in particular there is no `totalPrice` field.
`checkIn`/`checkOut` hold the `new Date(...)` values; `nights`/`guests`
hold the raw JSON values the client sent. -/
structure Reservation where
  userId : Jval
  name : Option Jval
  email : Option Jval
  postalCode : Option Jval
  address : Option Jval
  phone : Option Jval
  roomId : String
  roomType : Option Jval
  checkIn : Option Int
  checkOut : Option Int
  nights : Option Jval
  guests : Option Jval
  status : String
  createdAt : Nat
  roomDetails : RoomDetails
  deriving DecidableEq, Repr

/-- The document database: the `rooms` and `reservations` collections
(reservations keyed by their generated `_id` string) plus the store's
id-generation state, modelled as a counter. -/
structure DB where
  rooms : List Room
  reservations : List (String × Reservation)
  nextId : Nat
  deriving DecidableEq, Repr

/-- Little-endian base-16 digits with explicit fuel, so the function is
structurally recursive and kernel-computable. -/
def hexDigitsAux : Nat → Nat → List Nat
  | 0, _ => []
  | fuel + 1, n => if n = 0 then [] else n % 16 :: hexDigitsAux fuel (n / 16)

/-- The store-generated ObjectId for the `n`-th insertion: an injective,
never-empty hex string (MongoDB's actual ObjectId generation is opaque;
only non-emptiness and distinctness are observable to this core). -/
def oidString (n : Nat) : String :=
  ⟨(hexDigitsAux (n + 1) (n + 1)).map Nat.digitChar⟩

/-- Model of `new ObjectId(s)`: succeeds exactly on syntactically valid MongoDB
object ids and otherwise throws (modelled as `none`). -/
def objectIdNew (s : String) : Option String :=
  if isMongoId s then some s else none

/-- The reservation document literal of server.js lines 119-139, built from
the (sanitized) request body, the current time and the resolved room. -/
def buildReservation (p : Payload) (now : Nat) (room : Room) : Reservation where
  userId :=
    match p.userId with
    | some v => if jsTruthy v then v else .jstr "guest"
    | none => .jstr "guest"
  name := p.name
  email := p.email
  postalCode := p.postalCode
  address := p.address
  phone := p.phone
  roomId := vstr p.roomId
  roomType := p.roomType
  checkIn := jsNewDate p.checkIn
  checkOut := jsNewDate p.checkOut
  nights := p.nights
  guests := p.guests
  status := "confirmed"
  createdAt := now
  roomDetails := ⟨room.price, room.image, room.name⟩

/-- What the confirmation mail of lines 147-175 carries that the claims
observe: recipient, the computed total, and the reservation number. -/
structure EmailMsg where
  recipient : String
  totalPrice : Option Int
  reservationId : String
  deriving DecidableEq, Repr

/-- The HTTP outcome of `POST /api/reservations`, one constructor per
response site of the handler:
`validationFailed` = 400 with the descriptor array (line 106),
`roomNotFound` = 400 with `指定された部屋IDは存在しません` (line 116),
`created` = 201 with `{ id, ...reservation }` (line 184),
`serverError` = the catch-all 500 (line 187). -/
inductive CreateResult where
  | validationFailed (errors : List FieldError)
  | roomNotFound
  | created (id : String) (r : Reservation)
  | serverError
  deriving DecidableEq, Repr

/-- The full observable effect of one `POST /api/reservations` request:
the HTTP result, the store afterwards, the mails that left, and the ids
looked up in the `rooms` collection (to make "no further work" visible). -/
structure CreateOutcome where
  result : CreateResult
  db : DB
  emails : List EmailMsg
  roomLookups : List String
  deriving DecidableEq, Repr

/-- The `POST /api/reservations` handler (server.js lines 101-189).
`emailOk` is the notification transport's behaviour on this call:
`false` means `transporter.sendMail` faults, which the inner try/catch of
lines 145-181 swallows. -/
def createReservation (db : DB) (now : Nat) (emailOk : Bool) (p0 : Payload) :
    CreateOutcome :=
  let checked := validateReservation p0
  if checked.2.isEmpty then
    let p := checked.1
    match objectIdNew (vstr p.roomId) with
    | none => ⟨.serverError, db, [], []⟩
    | some oid =>
      match db.rooms.find? (fun r => r._id == oid) with
      | none => ⟨.roomNotFound, db, [], [oid]⟩
      | some room =>
        let resv := buildReservation p now room
        let rid := oidString db.nextId
        let db2 : DB :=
          ⟨db.rooms, db.reservations ++ [(rid, resv)], db.nextId + 1⟩
        let totalPrice :=
          jsMul (jsMul (some resv.roomDetails.price) (jsToNumber resv.nights))
            (jsToNumber resv.guests)
        let emails := if emailOk then [⟨vstr p.email, totalPrice, rid⟩] else []
        ⟨.created rid resv, db2, emails, [oid]⟩
  else ⟨.validationFailed checked.2, db, [], []⟩

/-- The HTTP outcome of `GET /api/reservations/:id`, one constructor per
response site: 404 `Reservation not found` (line 196), 404 `Room not found`
(line 200), 200 `{...reservation, roomDetails: room}` (line 202), and the
catch-all 500 (line 205) — which `new ObjectId(req.params.id)` reaches on a
malformed id, since it throws inside the try block. -/
inductive GetResult where
  | notFoundReservation
  | notFoundRoom
  | ok (r : Reservation) (roomDetails : Room)
  | serverError
  deriving DecidableEq, Repr

/-- The `GET /api/reservations/:id` handler (server.js lines 192-207). -/
def getReservation (db : DB) (id : String) : GetResult :=
  match objectIdNew id with
  | none => .serverError
  | some oid =>
    match db.reservations.find? (fun kv => kv.1 == oid) with
    | none => .notFoundReservation
    | some kv =>
      match db.rooms.find? (fun r => r._id == kv.2.roomId) with
      | none => .notFoundRoom
      | some room => .ok kv.2 room

/-! ## Helper lemmas -/

/-- Big-endian value of a little-endian base-16 digit list. -/
def ofHex (l : List Nat) : Nat := l.foldr (fun d acc => d + 16 * acc) 0

theorem hexDigitsAux_lt16 (fuel n : Nat) : ∀ x ∈ hexDigitsAux fuel n, x < 16 := by
  induction fuel generalizing n with
  | zero => intro x hx; simp [hexDigitsAux] at hx
  | succ fuel ih =>
    intro x hx
    by_cases h : n = 0
    · simp [hexDigitsAux, h] at hx
    · simp [hexDigitsAux, h] at hx
      rcases hx with hx | hx
      · omega
      · exact ih (n / 16) x hx

theorem ofHex_hexDigitsAux (fuel : Nat) :
    ∀ n, n ≤ fuel → ofHex (hexDigitsAux fuel n) = n := by
  induction fuel with
  | zero => intro n hn; interval_cases n; simp [hexDigitsAux, ofHex]
  | succ fuel ih =>
    intro n hn
    by_cases h : n = 0
    · simp [hexDigitsAux, h, ofHex]
    · have hdiv : n / 16 ≤ fuel := by
        have : n / 16 < n := Nat.div_lt_self (Nat.pos_of_ne_zero h) (by omega)
        omega
      simp only [hexDigitsAux, h, if_false, ofHex, List.foldr_cons]
      have := ih (n / 16) hdiv
      simp only [ofHex] at this
      rw [this]
      exact Nat.mod_add_div n 16

theorem digitChar_inj_lt16 :
    ∀ a < 16, ∀ b < 16, Nat.digitChar a = Nat.digitChar b → a = b := by decide

theorem map_digitChar_inj :
    ∀ l1 l2 : List Nat, (∀ x ∈ l1, x < 16) → (∀ x ∈ l2, x < 16) →
      l1.map Nat.digitChar = l2.map Nat.digitChar → l1 = l2 := by
  intro l1
  induction l1 with
  | nil => intro l2 _ _ h; cases l2 <;> simp_all
  | cons a t ih =>
    intro l2 h1 h2 h
    cases l2 with
    | nil => simp at h
    | cons b t2 =>
      simp only [List.map_cons, List.cons.injEq] at h
      obtain ⟨hab, ht⟩ := h
      have ha : a < 16 := h1 a (by simp)
      have hb : b < 16 := h2 b (by simp)
      have hab2 := digitChar_inj_lt16 a ha b hb hab
      subst hab2
      rw [ih t2 (fun x hx => h1 x (by simp [hx])) (fun x hx => h2 x (by simp [hx])) ht]

theorem oidString_inj : ∀ a b : Nat, oidString a = oidString b → a = b := by
  intro a b h
  have hd : (hexDigitsAux (a + 1) (a + 1)).map Nat.digitChar =
      (hexDigitsAux (b + 1) (b + 1)).map Nat.digitChar := congrArg String.data h
  have hl := map_digitChar_inj _ _ (hexDigitsAux_lt16 _ _) (hexDigitsAux_lt16 _ _) hd
  have ha := ofHex_hexDigitsAux (a + 1) (a + 1) (Nat.le_refl _)
  have hb := ofHex_hexDigitsAux (b + 1) (b + 1) (Nat.le_refl _)
  rw [hl, hb] at ha
  omega

theorem oidString_ne_empty (n : Nat) : oidString n ≠ "" := by
  intro h
  have hd : (hexDigitsAux (n + 1) (n + 1)).map Nat.digitChar = [] :=
    congrArg String.data h
  simp only [List.map_eq_nil_iff] at hd
  simp [hexDigitsAux] at hd

@[simp] theorem validateReservation_fst (p : Payload) :
    (validateReservation p).1 = sanitizeP p := rfl

@[simp] theorem sanitizeP_userId (p : Payload) : (sanitizeP p).userId = p.userId := rfl
@[simp] theorem sanitizeP_name (p : Payload) : (sanitizeP p).name = trimJ p.name := rfl
@[simp] theorem sanitizeP_email (p : Payload) : (sanitizeP p).email = p.email := rfl
@[simp] theorem sanitizeP_postalCode (p : Payload) :
    (sanitizeP p).postalCode = p.postalCode := rfl
@[simp] theorem sanitizeP_address (p : Payload) :
    (sanitizeP p).address = trimJ p.address := rfl
@[simp] theorem sanitizeP_phone (p : Payload) : (sanitizeP p).phone = p.phone := rfl
@[simp] theorem sanitizeP_roomType (p : Payload) :
    (sanitizeP p).roomType = p.roomType := rfl
@[simp] theorem sanitizeP_checkIn (p : Payload) : (sanitizeP p).checkIn = p.checkIn := rfl
@[simp] theorem sanitizeP_checkOut (p : Payload) :
    (sanitizeP p).checkOut = p.checkOut := rfl
@[simp] theorem sanitizeP_nights (p : Payload) : (sanitizeP p).nights = p.nights := rfl
@[simp] theorem sanitizeP_guests (p : Payload) : (sanitizeP p).guests = p.guests := rfl
@[simp] theorem sanitizeP_roomId (p : Payload) : (sanitizeP p).roomId = p.roomId := rfl

/-- The whole success path of `POST /api/reservations` in one equation:
a payload with no validation errors, a well-formed `roomId`, and a matching
room produces exactly a 201 with the assembled document, the insertion, the
single confirmation mail (when the transport works), and one room lookup. -/
theorem create_success_shape (db : DB) (now : Nat) (emailOk : Bool) (p : Payload)
    (hv : (validateReservation p).2 = [])
    (hoid : isMongoId (vstr p.roomId) = true)
    (room : Room)
    (hfind : db.rooms.find? (fun r => r._id == vstr p.roomId) = some room) :
    createReservation db now emailOk p =
      ⟨.created (oidString db.nextId) (buildReservation (sanitizeP p) now room),
       ⟨db.rooms,
        db.reservations ++ [(oidString db.nextId, buildReservation (sanitizeP p) now room)],
        db.nextId + 1⟩,
       (if emailOk then
          [⟨vstr p.email,
            jsMul (jsMul (some room.price) (jsToNumber p.nights)) (jsToNumber p.guests),
            oidString db.nextId⟩]
        else []),
       [vstr p.roomId]⟩ := by
  simp only [createReservation, validateReservation_fst, sanitizeP_roomId, hv,
    List.isEmpty_nil, if_true, objectIdNew, hoid, hfind]
  rfl

/-! ## Concrete fixtures (the spec §8 example scenario) -/

/-- The Room of the spec §8 example: price 10000, image `a.jpg`,
name `Standard Room`. -/
def roomA : Room := ⟨"aaaaaaaaaaaaaaaaaaaaaaaa", 10000, "a.jpg", "Standard Room"⟩

/-- A store holding just `roomA` and no reservations. -/
def db0 : DB := ⟨[roomA], [], 0⟩

/-- The valid example payload of spec §8. -/
def validPayload : Payload where
  userId := none
  name := some (.jstr "Taro Yamada")
  email := some (.jstr "taro@example.jp")
  postalCode := some (.jstr "123-4567")
  address := some (.jstr "1-2-3 Aizuwakamatsu")
  phone := some (.jstr "09012345678")
  roomType := some (.jstr "standard")
  checkIn := some (.jstr "2025-05-01")
  checkOut := some (.jstr "2025-05-03")
  nights := some (.jnum 2)
  guests := some (.jnum 2)
  roomId := some (.jstr "aaaaaaaaaaaaaaaaaaaaaaaa")

/-- The same payload with whitespace padding around the (still valid)
name — trimmed length 11 is within [2,50], so every §4.2 rule holds. -/
def paddedPayload : Payload :=
  { validPayload with name := some (.jstr " Taro Yamada ") }

/-- The spec §8 invalid variant: `checkOut` on 2025-04-30, before checkIn. -/
def badCheckOutPayload : Payload :=
  { validPayload with checkOut := some (.jstr "2025-04-30") }

/-- A fully valid payload whose `roomId` is well-formed but matches no
stored room. -/
def ghostRoomPayload : Payload :=
  { validPayload with roomId := some (.jstr "bbbbbbbbbbbbbbbbbbbbbbbb") }

/-- A valid payload carrying `userId: ""` — present, a string, hence
passing the `optional().isString()` rule, but falsy in JS. -/
def emptyUserPayload : Payload :=
  { validPayload with userId := some (.jstr "") }

/-- A stored reservation referencing `roomA`, as created from the example
payload at time 5. -/
def resvA : Reservation := buildReservation (sanitizeP validPayload) 5 roomA

/-- Store with `roomA` and one stored reservation. -/
def dbGet : DB := ⟨[roomA], [("cccccccccccccccccccccccc", resvA)], 1⟩

/-- Store where the reservation survived but its room was deleted. -/
def dbNoRoom : DB := ⟨[], [("cccccccccccccccccccccccc", resvA)], 1⟩

/-- Copy of `roomA` after a later price change to 12000 — so the stored snapshot
(price 10000) and the current room disagree. -/
def roomA2 : Room := ⟨"aaaaaaaaaaaaaaaaaaaaaaaa", 12000, "a.jpg", "Standard Room"⟩

/-- Store where the room changed after `resvA` was created. -/
def dbFresh : DB := ⟨[roomA2], [("cccccccccccccccccccccccc", resvA)], 1⟩

/-- A valid payload except that its `roomId` is the malformed id `"xyz"`. -/
def xyzRoomIdPayload : Payload :=
  { validPayload with roomId := some (.jstr "xyz") }

/-- A payload with a non-empty validation-error list is answered with the
400 descriptor array and nothing else happens: no room lookup, no insert,
no mail (server.js lines 103-107 return before the try block). -/
theorem create_validation_failure_shape (db : DB) (now : Nat) (emailOk : Bool)
    (p : Payload) (hv : (validateReservation p).2 ≠ []) :
    createReservation db now emailOk p =
      ⟨.validationFailed (validateReservation p).2, db, [], []⟩ := by
  have hb : (validateReservation p).2.isEmpty = false := by
    cases h : (validateReservation p).2 with
    | nil => exact absurd h hv
    | cons a t => simp [List.isEmpty]
  simp [createReservation, hb]

/-! ## Claim theorems -/

/-- C1 (counterexample): the claim "every field of the returned record
equals the submitted value, except status/createdAt/roomDetails/id" fails
on the code.  `paddedPayload` satisfies every §4.2 rule (its name,
" Taro Yamada ", trims to length 11 ∈ [2,50]) and its room exists, so
creation succeeds with 201 — but the returned record's `name` is the
trimmed "Taro Yamada", not the submitted padded string: the `trim()`
sanitizer of server.js line 82 rewrote the body before the handler read
it. -/
theorem c1_trim_counterexample :
    (createReservation db0 7 true paddedPayload).result =
      .created (oidString 0) (buildReservation (sanitizeP paddedPayload) 7 roomA) ∧
    (buildReservation (sanitizeP paddedPayload) 7 roomA).name ≠ paddedPayload.name ∧
    paddedPayload.name = some (.jstr " Taro Yamada ") ∧
    (buildReservation (sanitizeP paddedPayload) 7 roomA).name =
      some (.jstr "Taro Yamada") := by
  refine ⟨by decide, by decide, by decide, by decide⟩

/-- C1 (amended): for every payload satisfying every §4.2 rule whose
roomId resolves to an existing room, creation succeeds with 201 and every
field of the returned record equals the submitted value after the declared
conversions — `name`/`address` trimmed by the sanitizer, `checkIn`/`checkOut`
parsed as dates, `roomId` as an object id, falsy `userId` defaulted to
"guest" — except `status` ("confirmed"), `createdAt` (set to the call
time), `roomDetails` (the referenced room's current price/image/name), and
the generated identifier (non-empty, distinct from every other generated
identifier). -/
theorem c1_created_record_fields (db : DB) (now : Nat) (emailOk : Bool) (p : Payload)
    (hv : (validateReservation p).2 = [])
    (hoid : isMongoId (vstr p.roomId) = true)
    (room : Room)
    (hfind : db.rooms.find? (fun r => r._id == vstr p.roomId) = some room) :
    ∃ r : Reservation,
      (createReservation db now emailOk p).result = .created (oidString db.nextId) r ∧
      r.name = trimJ p.name ∧
      r.email = p.email ∧
      r.postalCode = p.postalCode ∧
      r.address = trimJ p.address ∧
      r.phone = p.phone ∧
      r.roomType = p.roomType ∧
      r.nights = p.nights ∧
      r.guests = p.guests ∧
      r.roomId = vstr p.roomId ∧
      r.checkIn = jsNewDate p.checkIn ∧
      r.checkOut = jsNewDate p.checkOut ∧
      r.userId = (match p.userId with
        | some v => if jsTruthy v then v else .jstr "guest"
        | none => .jstr "guest") ∧
      r.status = "confirmed" ∧
      r.createdAt = now ∧
      r.roomDetails = ⟨room.price, room.image, room.name⟩ ∧
      oidString db.nextId ≠ "" ∧
      (∀ m : Nat, m ≠ db.nextId → oidString m ≠ oidString db.nextId) := by
  refine ⟨buildReservation (sanitizeP p) now room, ?_, rfl, rfl, rfl, rfl, rfl, rfl,
    rfl, rfl, rfl, rfl, rfl, rfl, rfl, rfl, rfl, oidString_ne_empty _,
    fun m hm h => hm (oidString_inj m db.nextId h)⟩
  rw [create_success_shape db now emailOk p hv hoid room hfind]

/-- C1 witness: the amended theorem applied to the spec §8 example payload
against the store holding its room. -/
theorem c1_created_record_fields_witness :
    ∃ r : Reservation,
      (createReservation db0 7 true validPayload).result = .created (oidString 0) r ∧
      r.name = trimJ validPayload.name ∧
      r.status = "confirmed" := by
  obtain ⟨r, h1, hrest⟩ :=
    c1_created_record_fields db0 7 true validPayload (by decide) (by decide) roomA
      (by decide)
  exact ⟨r, h1, hrest.1, hrest.2.2.2.2.2.2.2.2.2.2.2.2.1⟩

/-- C2: a payload violating at least one §4.2 rule is rejected with the
full field-level descriptor list (400), and nothing else happens: the
store is untouched, no room lookup runs, no notification leaves. -/
theorem c2_invalid_payload_rejected (db : DB) (now : Nat) (emailOk : Bool)
    (p : Payload) (hv : (validateReservation p).2 ≠ []) :
    createReservation db now emailOk p =
      ⟨.validationFailed (validateReservation p).2, db, [], []⟩ :=
  create_validation_failure_shape db now emailOk p hv

/-- C2 witness: the spec §8 invalid variant (`checkOut` 2025-04-30 before
checkIn) produces exactly the checkOut-field descriptor, with the store
unchanged and no mail. -/
theorem c2_invalid_payload_rejected_witness :
    createReservation db0 7 true badCheckOutPayload =
      ⟨.validationFailed [⟨"checkOut", checkOutOrderMsg⟩], db0, [], []⟩ := by
  have h := c2_invalid_payload_rejected db0 7 true badCheckOutPayload (by decide)
  rw [h]
  decide

/-- C3: a payload passing every §4.2 rule whose roomId matches no stored
room is answered with the dedicated room-not-found 400 (server.js lines
114-117), the store is unchanged, no mail leaves — and this outcome is a
different constructor from every validation failure, because it depends on
the current store state (via the one room lookup performed), not on the
payload alone. -/
theorem c3_unknown_room_rejected (db : DB) (now : Nat) (emailOk : Bool) (p : Payload)
    (hv : (validateReservation p).2 = [])
    (hoid : isMongoId (vstr p.roomId) = true)
    (hfind : db.rooms.find? (fun r => r._id == vstr p.roomId) = none) :
    createReservation db now emailOk p = ⟨.roomNotFound, db, [], [vstr p.roomId]⟩ ∧
    (∀ es : List FieldError, (CreateResult.roomNotFound : CreateResult) ≠
      .validationFailed es) := by
  constructor
  · simp only [createReservation, validateReservation_fst, sanitizeP_roomId, hv,
      List.isEmpty_nil, if_true, objectIdNew, hoid, hfind]
  · intro es h
    exact CreateResult.noConfusion h

/-- C3 witness: the valid payload referencing the absent room
`bbbbbbbbbbbbbbbbbbbbbbbb` against the store holding only `roomA`. -/
theorem c3_unknown_room_rejected_witness :
    createReservation db0 7 true ghostRoomPayload =
      ⟨.roomNotFound, db0, [], ["bbbbbbbbbbbbbbbbbbbbbbbb"]⟩ :=
  (c3_unknown_room_rejected db0 7 true ghostRoomPayload (by decide) (by decide)
    (by decide)).1

/-- C4: whether the notification transport succeeds or faults changes
neither the HTTP result of `POST /api/reservations` nor the store
afterwards — the try/catch of server.js lines 145-181 swallows the fault
and line 184 still answers 201 with the same created record. -/
theorem c4_email_fault_suppressed (db : DB) (now : Nat) (p : Payload) :
    (createReservation db now true p).result = (createReservation db now false p).result ∧
    (createReservation db now true p).db = (createReservation db now false p).db := by
  simp only [createReservation]
  cases hE : (validateReservation p).2.isEmpty with
  | false => simp [hE]
  | true =>
    simp only [hE, if_true]
    cases hO : objectIdNew (vstr (validateReservation p).1.roomId) with
    | none => simp [hO]
    | some oid =>
      simp only [hO]
      cases hF : db.rooms.find? (fun r => r._id == oid) with
      | none => simp [hF]
      | some room => simp [hF]

/-- C5 (counterexample): the claim "operations taking an identifier reject
a malformed one as a not-found/bad-request client error, never HTTP 500"
fails on `GET /api/reservations/:id`: on the malformed id `"xyz"`,
`new ObjectId(req.params.id)` (server.js line 194) throws inside the try
block and the catch at line 203 answers 500 — the store-fault response,
not a 404/400. -/
theorem c5_get_malformed_counterexample :
    getReservation db0 "xyz" = .serverError ∧
    (GetResult.serverError ≠ .notFoundReservation) ∧
    (GetResult.serverError ≠ .notFoundRoom) := by
  refine ⟨by decide, by decide, by decide⟩

/-- C5 (amended): a malformed identifier never reaches the store on either
path, but the two operations report it differently: `getReservation`
answers with the catch-all 500 (for any store state), while
`createReservation`'s roomId path rejects it as a 400 validation error
carrying the roomId descriptor, with no lookup, no write and no mail. -/
theorem c5_malformed_id_paths (db : DB) (s : String) (h : isMongoId s = false) :
    getReservation db s = .serverError ∧
    ∀ (db2 : DB) (now : Nat) (emailOk : Bool) (p : Payload),
      p.roomId = some (.jstr s) →
      (⟨"roomId", roomIdFormatMsg⟩ : FieldError) ∈ (validateReservation p).2 ∧
      createReservation db2 now emailOk p =
        ⟨.validationFailed (validateReservation p).2, db2, [], []⟩ := by
  constructor
  · simp [getReservation, objectIdNew, h]
  · intro db2 now emailOk p hp
    have hmem : (⟨"roomId", roomIdFormatMsg⟩ : FieldError) ∈ (validateReservation p).2 := by
      simp [validateReservation, roomIdErrors, hp, vstr, h, List.mem_append]
    exact ⟨hmem,
      create_validation_failure_shape db2 now emailOk p (List.ne_nil_of_mem hmem)⟩

/-- C5 witness: the amended theorem at the malformed id `"xyz"`, both for
the read path and for a creation payload carrying it as roomId. -/
theorem c5_malformed_id_paths_witness :
    getReservation db0 "xyz" = .serverError ∧
    (⟨"roomId", roomIdFormatMsg⟩ : FieldError) ∈ (validateReservation xyzRoomIdPayload).2 ∧
    createReservation db0 7 true xyzRoomIdPayload =
      ⟨.validationFailed (validateReservation xyzRoomIdPayload).2, db0, [], []⟩ :=
  ⟨(c5_malformed_id_paths db0 "xyz" (by decide)).1,
   ((c5_malformed_id_paths db0 "xyz" (by decide)).2 db0 7 true xyzRoomIdPayload rfl).1,
   ((c5_malformed_id_paths db0 "xyz" (by decide)).2 db0 7 true xyzRoomIdPayload rfl).2⟩

/-- C6: `getReservation` answers 404 `Reservation not found` when the id
matches no stored reservation, and 404 `Room not found` when the
reservation is found but its referenced room is gone from the rooms
collection — even though the reservation record itself is present. -/
theorem c6_get_not_found_branches (db : DB) (id oid : String)
    (h : objectIdNew id = some oid) :
    (db.reservations.find? (fun kv => kv.1 == oid) = none →
      getReservation db id = .notFoundReservation) ∧
    (∀ (k : String) (r : Reservation),
      db.reservations.find? (fun kv => kv.1 == oid) = some (k, r) →
      db.rooms.find? (fun rm => rm._id == r.roomId) = none →
      getReservation db id = .notFoundRoom) := by
  constructor
  · intro hf
    simp [getReservation, h, hf]
  · intro k r hf hr
    simp [getReservation, h, hf, hr]

/-- C6 witness: an unknown (well-formed) id against `dbGet`, and the
stored reservation of `dbNoRoom`, whose room was deleted. -/
theorem c6_get_not_found_branches_witness :
    getReservation dbGet "dddddddddddddddddddddddd" = .notFoundReservation ∧
    getReservation dbNoRoom "cccccccccccccccccccccccc" = .notFoundRoom :=
  ⟨(c6_get_not_found_branches dbGet "dddddddddddddddddddddddd"
      "dddddddddddddddddddddddd" (by decide)).1 (by decide),
   (c6_get_not_found_branches dbNoRoom "cccccccccccccccccccccccc"
      "cccccccccccccccccccccccc" (by decide)).2 "cccccccccccccccccccccccc" resvA
      (by decide) (by decide)⟩

/-- C7: a successful `getReservation` returns the reservation with the
room record freshly fetched from the rooms collection at read time
substituted as `roomDetails` (server.js line 202) — the current room, not
the snapshot persisted at creation. -/
theorem c7_get_rejoins_current_room (db : DB) (id oid k : String)
    (r : Reservation) (room : Room)
    (h : objectIdNew id = some oid)
    (hf : db.reservations.find? (fun kv => kv.1 == oid) = some (k, r))
    (hr : db.rooms.find? (fun rm => rm._id == r.roomId) = some room) :
    getReservation db id = .ok r room := by
  simp [getReservation, h, hf, hr]

/-- C7 witness: in `dbFresh` the room's price changed to 12000 after the
reservation stored a snapshot at 10000; the read answers with the current
room, which disagrees with the persisted snapshot. -/
theorem c7_get_rejoins_current_room_witness :
    getReservation dbFresh "cccccccccccccccccccccccc" = .ok resvA roomA2 ∧
    resvA.roomDetails.price ≠ roomA2.price :=
  ⟨c7_get_rejoins_current_room dbFresh "cccccccccccccccccccccccc"
      "cccccccccccccccccccccccc" "cccccccccccccccccccccccc" resvA roomA2
      (by decide) (by decide) (by decide),
   by decide⟩

/-- C8: whenever both stay dates parse and checkOut is equal to or earlier
than checkIn, the validation output contains the checkOut-field descriptor
of the custom cross-field rule (server.js lines 89-96) — for every payload,
whatever the other fields look like. -/
theorem c8_checkout_not_after_checkin (p : Payload) (ci co : Int)
    (hci : jsNewDate p.checkIn = some ci)
    (hco : jsNewDate p.checkOut = some co)
    (hle : co ≤ ci) :
    (⟨"checkOut", checkOutOrderMsg⟩ : FieldError) ∈ (validateReservation p).2 := by
  simp [validateReservation, checkOutErrors, checkOutCustomErrors, hci, hco, hle,
    List.mem_append]

/-- C8 witness: the spec §8 variant with checkOut 2025-04-30 against
checkIn 2025-05-01. -/
theorem c8_checkout_not_after_checkin_witness :
    (⟨"checkOut", checkOutOrderMsg⟩ : FieldError) ∈
      (validateReservation badCheckOutPayload).2 :=
  c8_checkout_not_after_checkin badCheckOutPayload 20250501 20250430
    (by decide) (by decide) (by decide)

/-- C9: on every successful creation, the total carried by the
confirmation mail is exactly `roomDetails.price × nights × guests`
(server.js line 146), and the persisted document is the `buildReservation`
record — a `Reservation`, whose fields are exactly those of lines 119-139
and include no `totalPrice`; the total exists only in the mail. -/
theorem c9_total_price (db : DB) (now : Nat) (p : Payload)
    (hv : (validateReservation p).2 = [])
    (hoid : isMongoId (vstr p.roomId) = true)
    (room : Room)
    (hfind : db.rooms.find? (fun r => r._id == vstr p.roomId) = some room)
    (n g : Int)
    (hn : jsToNumber p.nights = some n)
    (hg : jsToNumber p.guests = some g) :
    (createReservation db now true p).emails =
      [⟨vstr p.email, some (room.price * n * g), oidString db.nextId⟩] ∧
    (createReservation db now true p).db.reservations =
      db.reservations ++ [(oidString db.nextId, buildReservation (sanitizeP p) now room)] := by
  rw [create_success_shape db now true p hv hoid room hfind]
  constructor
  · simp [jsMul, hn, hg]
  · rfl

/-- C9 witness: the spec §8 example — price 10000, 2 nights, 2 guests —
gives exactly total 40000 in the mail. -/
theorem c9_total_price_witness :
    (createReservation db0 7 true validPayload).emails =
      [⟨"taro@example.jp", some 40000, oidString 0⟩] ∧
    (createReservation db0 7 true validPayload).db.reservations =
      [(oidString 0, buildReservation (sanitizeP validPayload) 7 roomA)] :=
  c9_total_price db0 7 validPayload (by decide) (by decide) roomA (by decide)
    2 2 (by decide) (by decide)

/-- C10: a payload whose `userId` is present but the empty string passes
validation (the rule is only `optional().isString()`), yet the created
reservation's userId is "guest": the userId-or-guest default (server.js line 120)
replaces every falsy value, not only an absent one. -/
theorem c10_empty_userId_defaults_guest (db : DB) (now : Nat) (emailOk : Bool)
    (p : Payload)
    (hv : (validateReservation p).2 = [])
    (hoid : isMongoId (vstr p.roomId) = true)
    (room : Room)
    (hfind : db.rooms.find? (fun r => r._id == vstr p.roomId) = some room)
    (hu : p.userId = some (.jstr "")) :
    ∃ r : Reservation,
      (createReservation db now emailOk p).result = .created (oidString db.nextId) r ∧
      r.userId = .jstr "guest" := by
  refine ⟨buildReservation (sanitizeP p) now room, ?_, ?_⟩
  · rw [create_success_shape db now emailOk p hv hoid room hfind]
  · simp [buildReservation, hu, jsTruthy]

/-- C10 witness: `emptyUserPayload` (userId present, `""`) passes
validation and is stored with userId "guest". -/
theorem c10_empty_userId_defaults_guest_witness :
    ∃ r : Reservation,
      (createReservation db0 7 true emptyUserPayload).result =
        .created (oidString 0) r ∧
      r.userId = .jstr "guest" :=
  c10_empty_userId_defaults_guest db0 7 true emptyUserPayload (by decide) (by decide)
    roomA (by decide) (by decide)

end AizuServer
